import Mathlib

/-!
Shallow embedding of the voice-control DSP core found in the repository's
variants (Test4, Test5, Test7, Test8, Test9, Test10, Test11).  Volumes,
band energies, ratios and timestamps are modelled as rationals; the audio
device, the FFT arithmetic of a *successful* block read and the OS key
injection API are external collaborators, modelled respectively as the
already-computed feature values, an `Option` input (`none` = the `except`
path) and an explicit event list / pressed-key state.
-/

namespace DSPCore

/-- The discrete commands produced by the decision engines.  `LEFT`/`RIGHT`
are the vowel steering classes, `GAS`/`BRAKE` the fricative pedal classes,
`RESPAWN` the loud-impulse (clap) trigger. -/
inductive Action where
  | IDLE | LEFT | RIGHT | GAS | BRAKE | RESPAWN
deriving DecidableEq, Repr

/-- Band-energy feature vector: the dict built once per block in
Test8's `run` / the 5-tuple returned by `get_spectrum` in Test4/9/10:
rms volume plus the four band energies (pitch 100-300 Hz, low 300-800 Hz,
mid 2000-4000 Hz, high 5000-10000 Hz). -/
structure Feats where
  vol : ℚ
  pitch : ℚ
  low : ℚ
  mid : ℚ
  high : ℚ
deriving DecidableEq, Repr

/-- Mean (np.mean) over a list of rationals (0 on the empty list, which numpy
would reject; calibration always records a non-empty buffer). -/
def meanQ (xs : List ℚ) : ℚ := xs.sum / xs.length

/-- Max (np.max) over a list of rationals (0 on the empty list, which numpy
would reject; calibration always records a non-empty buffer). -/
def listMax : List ℚ → ℚ
  | [] => 0
  | x :: xs => xs.foldl max x

/-- The four held key lines (accelerate, brake, steer left, steer right);
the `pressed` dict of the variants, restricted to the held keys. -/
structure Keys where
  up : Bool
  down : Bool
  left : Bool
  right : Bool
deriving DecidableEq, Repr

/-- All lines released. -/
def Keys.allOff : Keys := ⟨false, false, false, false⟩

/-- Five key lines: the four held lines plus the respawn key, matching the
five-entry `pressed` dict of Test5, Test7 and Test11. -/
structure Keys5 where
  up : Bool
  down : Bool
  left : Bool
  right : Bool
  enter : Bool
deriving DecidableEq, Repr

/-- All five lines released. -/
def Keys5.allOff : Keys5 := ⟨false, false, false, false, false⟩

/-- Effects sent to `pydirectinput`: a momentary `press`, or a key-down /
key-up edge on a held line. -/
inductive KeyEvt where
  | press (k : String)
  | down (k : String)
  | keyUp (k : String)
deriving DecidableEq, Repr

/-- One key line's update inside the `apply_keys` loops shared by all
variants: emit an edge only when the desired state differs from the
current one. -/
def edge (k : String) (want cur : Bool) : List KeyEvt :=
  if want && !cur then [.down k]
  else if !want && cur then [.keyUp k]
  else []

namespace Test8

/-- Decision hold constant, 0.15 seconds (Test8). -/
def DECISION_HOLD : ℚ := 15 / 100

/-- Test8's `self.thresh` dict: silence and clap volume bounds, pitch gate
and the two ratio splits (`ratio_oe`, `ratio_ssh` in the source). -/
structure Thresh where
  silence : ℚ
  pitch : ℚ
  r_oe : ℚ
  r_ssh : ℚ
  clap : ℚ
deriving DecidableEq, Repr

/-- Test8's startup thresholds (`AudioWorker.__init__`). -/
def defaults : Thresh := ⟨600, 0, 3/2, 3, 15000⟩

/-- The decision engine's mutable state: `self.last_action` (initially
`None`, hence `Option`) and `self.last_time` (initially 0). -/
structure St where
  last_action : Option Action
  last_time : ℚ
deriving DecidableEq, Repr

/-- Initial state set in `AudioWorker.__init__`. -/
def St.init : St := ⟨none, 0⟩

/-- The voiced/fricative classification computed in the body of Test8's
decide once the clap and silence gates have both failed (the local `act`
variable of the source). -/
def vowelFricAct (m : Feats) (t : Thresh) : Action :=
  if m.pitch > t.pitch then
    (if m.mid / (m.low + 1) > t.r_oe then .LEFT else .RIGHT)
  else
    (if m.high / (m.mid + 1) > t.r_ssh then .GAS else .BRAKE)

/-- Model of AudioWorker.decide(self, m) of Test8, with `time.time()`
passed in as `now`.  Returns the emitted action together with the updated
state.  Source order: the hold check first, then clap, silence,
vowel/fricative. -/
def decide (s : St) (now : ℚ) (m : Feats) (t : Thresh) : Option Action × St :=
  if now - s.last_time < DECISION_HOLD then
    (s.last_action, s)
  else if m.vol > t.clap then
    (some .RESPAWN, ⟨some .RESPAWN, now⟩)
  else if m.vol < t.silence then
    (some .IDLE, ⟨some .IDLE, s.last_time⟩)
  else
    (some (vowelFricAct m t), ⟨some (vowelFricAct m t), now⟩)

/-- Runs `decide` over a timed block sequence, collecting the per-block
emitted actions (the loop body of `run`: one `decide` per block). -/
def runTrace (s : St) (t : Thresh) : List (ℚ × Feats) → List (Option Action)
  | [] => []
  | (now, m) :: rest =>
      let (a, s') := decide s now m t
      a :: runTrace s' t rest

/-- Test8's `mapping` dict inside `apply` (up, down, left, right); the
`.get` default covers `IDLE`, `None` and any unmapped action. -/
def mapping : Option Action → Keys
  | some .LEFT => ⟨true, false, true, false⟩
  | some .RIGHT => ⟨true, false, false, true⟩
  | some .GAS => ⟨true, false, false, false⟩
  | some .BRAKE => ⟨false, true, false, false⟩
  | _ => Keys.allOff

/-- Model of AudioWorker.apply(self, act) of Test8: `RESPAWN` is sent as a
momentary `press` and returns early without touching the held-key state;
every other action is converted to the four desired line states and each
line gets a key-down/key-up edge only on change. -/
def applyAct (p : Keys) (act : Option Action) : List KeyEvt × Keys :=
  if act = some .RESPAWN then
    ([.press "q"], p)
  else
    let w := mapping act
    (edge "w" w.up p.up ++ edge "s" w.down p.down ++
       edge "a" w.left p.left ++ edge "d" w.right p.right,
     w)

end Test8

namespace Test10

/-- Test10's five threshold attributes (`AudioProcessor.__init__`):
`silence_thresh`, `respawn_thresh`, `pitch_thresh`, `ratio_oe`
(renamed `r_oe`), `ratio_ssh` (renamed `r_ssh`). -/
structure Thresh where
  silence : ℚ
  respawn : ℚ
  pitch : ℚ
  r_oe : ℚ
  r_ssh : ℚ
deriving DecidableEq, Repr

/-- Test10's startup defaults (500, 15000, 1000, 1.5, 3.0). -/
def defaults : Thresh := ⟨500, 15000, 1000, 3/2, 3⟩

/-- Model of AudioProcessor.get_spectrum of Test10 (same body in Test9 and
Test4): the successful read's DSP arithmetic is abstracted as the computed
feature tuple; the `except` path returns `(0,0,0,0,0)`. -/
def get_spectrum (read : Option Feats) : Feats :=
  match read with
  | some f => f
  | none => ⟨0, 0, 0, 0, 0⟩

/-- What one iteration of Test10's `process_loop` decides for a block:
whether the respawn key is pressed this block, and the four desired key
line states handed to `apply_keys`. -/
structure StepOut where
  pressRespawn : Bool
  keys : Keys
deriving DecidableEq, Repr

/-- Decision portion of one `process_loop` iteration of Test10: respawn
check first, then the silence gate, then the pitch gate choosing the vowel
branch (steer + accelerate), else the fricative branch with the hard
`ratio > 5.0` ceiling alongside the calibrated split. -/
def step (t : Thresh) (f : Feats) : StepOut :=
  if f.vol > t.respawn then
    ⟨true, Keys.allOff⟩
  else if f.vol > t.silence then
    if f.pitch > t.pitch then
      if f.mid / (f.low + 1) > t.r_oe then ⟨false, ⟨true, false, true, false⟩⟩
      else ⟨false, ⟨true, false, false, true⟩⟩
    else
      if f.high / (f.mid + 1) > t.r_ssh ∨ f.high / (f.mid + 1) > 5 then
        ⟨false, ⟨true, false, false, false⟩⟩
      else ⟨false, ⟨false, true, false, false⟩⟩
  else ⟨false, Keys.allOff⟩

/-- Silence line of Test10's `finish` (`max(np.mean(vols)*2, 500)`),
applied to the SILENCE step's captured volumes. -/
def silOf (vols : List ℚ) : ℚ := max (meanQ vols * 2) 500

/-- Respawn line of Test10's `finish` (`np.max(clap vols) * 0.8`). -/
def respawnOf (vols : List ℚ) : ℚ := listMax vols * (8/10)

end Test10

namespace Test9

/-- Silence step of Test9's `finish_calibration`
(`max(np.mean(vols) * 2.0, 500)`). -/
def silenceFloor (vols : List ℚ) : ℚ := max (meanQ vols * 2) 500

/-- Respawn step of Test9's `finish_calibration`
(`np.max(clap vols) * 0.8`). -/
def respawnOf (vols : List ℚ) : ℚ := listMax vols * (8/10)

end Test9

namespace Test4

/-- Test4's threshold attributes (`VoiceController.__init__`). -/
structure Thresh where
  silence : ℚ
  respawn : ℚ
  pitch : ℚ
  r_oe : ℚ
  r_ssh : ℚ
deriving DecidableEq, Repr

/-- Test4's startup defaults (500, 10000, 0, 1.5, 3.0). -/
def defaults : Thresh := ⟨500, 10000, 0, 3/2, 3⟩

/-- Outcome of one `process_audio` call of Test4: the respawn branch
returns early (keys untouched that iteration); otherwise `apply` receives
the four desired line states. -/
inductive Out where
  | respawn
  | lines (k : Keys)
deriving DecidableEq, Repr

/-- Model of VoiceController.process_audio of Test4 on the block's
features: respawn check with early return, silence gate, the pitch ("hum")
gate for the vowel branch (steer + accelerate), the fricative branch with
the `ratio > 5.0` safety net. -/
def process_audio (t : Thresh) (f : Feats) : Out :=
  if f.vol > t.respawn then .respawn
  else if f.vol > t.silence then
    if f.pitch > t.pitch then
      (if f.mid / (f.low + 1) > t.r_oe then .lines ⟨true, false, true, false⟩
       else .lines ⟨true, false, false, true⟩)
    else
      (if f.high / (f.mid + 1) > t.r_ssh ∨ f.high / (f.mid + 1) > 5 then
        .lines ⟨true, false, false, false⟩
       else .lines ⟨false, true, false, false⟩)
  else .lines Keys.allOff

end Test4

namespace Test11

/-- ZCR/centroid feature triple returned by Test11's `get_features`:
rms volume, zero-crossing rate, spectral centroid. -/
structure FeatsZ where
  rms : ℚ
  zcr : ℚ
  cent : ℚ
deriving DecidableEq, Repr

/-- Model of AudioProcessor.get_features of Test11: the successful read's
DSP arithmetic is abstracted as the computed triple; the `except` path
returns `(0, 0, 0)`. -/
def get_features (read : Option FeatsZ) : FeatsZ :=
  match read with
  | some f => f
  | none => ⟨0, 0, 0⟩

/-- Test11's threshold attributes: `thresh_silence`, `thresh_zcr`,
`thresh_vowel_cent`, `thresh_fric_cent`, `thresh_respawn`. -/
structure Thresh where
  silence : ℚ
  zcr : ℚ
  vowel_cent : ℚ
  fric_cent : ℚ
  respawn : ℚ
deriving DecidableEq, Repr

/-- Test11's startup defaults (300, 0.15, 1500, 4000, 20000). -/
def defaults : Thresh := ⟨300, 15/100, 1500, 4000, 20000⟩

/-- Model of AudioProcessor.decide_command of Test11: respawn check, then
the silence gate, then the ZCR split (low ZCR = vowel/steering, centroid
picks LEFT vs RIGHT; high ZCR = fricative/pedal, centroid picks BRAKE vs
GAS). -/
def decide_command (t : Thresh) (f : FeatsZ) : Action :=
  if f.rms > t.respawn then .RESPAWN
  else if f.rms < t.silence then .IDLE
  else if f.zcr < t.zcr then
    (if f.cent < t.vowel_cent then .LEFT else .RIGHT)
  else
    (if f.cent < t.fric_cent then .BRAKE else .GAS)

/-- The `target` dict built inside Test11's `apply_keys`: each command
asserts exactly one line (IDLE none); note that LEFT/RIGHT assert only the
steering line, without the accelerate line, and RESPAWN asserts the held
enter line. -/
def target : Action → Keys5
  | .GAS => ⟨true, false, false, false, false⟩
  | .BRAKE => ⟨false, true, false, false, false⟩
  | .LEFT => ⟨false, false, true, false, false⟩
  | .RIGHT => ⟨false, false, false, true, false⟩
  | .RESPAWN => ⟨false, false, false, false, true⟩
  | .IDLE => Keys5.allOff

/-- Model of AudioProcessor.apply_keys of Test11: builds the target line
states for the command and emits a key edge per line that changed; the new
pressed state equals the target. -/
def apply_keys (p : Keys5) (c : Action) : List KeyEvt × Keys5 :=
  let w := target c
  (edge "up" w.up p.up ++ edge "down" w.down p.down ++
     edge "left" w.left p.left ++ edge "right" w.right p.right ++
     edge "enter" w.enter p.enter,
   w)

/-- Per-step captured sample lists of Test11's calibration wizard
(`results` dict keyed by step name). -/
structure Samples where
  silence : List FeatsZ
  ooo : List FeatsZ
  eee : List FeatsZ
  shhh : List FeatsZ
  ssss : List FeatsZ
  clap : List FeatsZ

/-- Model of `finish` in Test11's calibration wizard: silence threshold
from the MAX silence rms (`max(max_rms * 2, 300)`), respawn from the peak
clap rms times 0.8, the ZCR split as the mean of vowel and fricative mean
ZCRs, and the two centroid splits as means of the step means.  The result
is assigned to the processor unconditionally — the function has no error
outcome. -/
def finish (r : Samples) : Thresh :=
  let sil := max (listMax (r.silence.map (·.rms)) * 2) 300
  let resp := listMax (r.clap.map (·.rms)) * (8/10)
  let zcrV := meanQ ((r.ooo ++ r.eee).map (·.zcr))
  let zcrF := meanQ ((r.shhh ++ r.ssss).map (·.zcr))
  let centO := meanQ (r.ooo.map (·.cent))
  let centE := meanQ (r.eee.map (·.cent))
  let centSh := meanQ (r.shhh.map (·.cent))
  let centS := meanQ (r.ssss.map (·.cent))
  ⟨sil, (zcrV + zcrF) / 2, (centO + centE) / 2, (centSh + centS) / 2, resp⟩

end Test11

namespace Test5

/-- Model of AudioWorker.stop_stream of Test5: it stops and closes the
stream and terminates PyAudio (external effects) but performs no key
operation at all — the pressed-key state is left exactly as it was and no
key-up events are issued. -/
def stop_stream (p : Keys5) : List KeyEvt × Keys5 := ([], p)

end Test5

namespace Test7

/-- Model of AudioWorker.release_all_keys of Test7: a key-up is issued for
every currently pressed key and the pressed state is cleared. -/
def release_all_keys (p : Keys5) : List KeyEvt × Keys5 :=
  ((if p.up then [KeyEvt.keyUp "w"] else []) ++
     (if p.down then [KeyEvt.keyUp "s"] else []) ++
     (if p.left then [KeyEvt.keyUp "a"] else []) ++
     (if p.right then [KeyEvt.keyUp "d"] else []) ++
     (if p.enter then [KeyEvt.keyUp "q"] else []),
   Keys5.allOff)

/-- Model of AudioWorker.stop_stream of Test7: `release_all_keys` first,
then the stream shutdown and PyAudio termination (external effects). -/
def stop_stream (p : Keys5) : List KeyEvt × Keys5 := release_all_keys p

end Test7

/-- Concrete calibration transcript for Test11's wizard whose SILENCE step
captured rms volumes 100, 120, 110 (the other steps hold ordinary voiced /
fricative / clap readings). -/
def calSilence100 : Test11.Samples :=
  ⟨[⟨100, 0, 0⟩, ⟨120, 0, 0⟩, ⟨110, 0, 0⟩],
   [⟨1000, 1/20, 1000⟩], [⟨1000, 1/20, 2000⟩],
   [⟨1000, 1/4, 3000⟩], [⟨1000, 1/4, 5000⟩], [⟨18000, 1/2, 6000⟩]⟩

/-- Concrete calibration transcript for Test11's wizard in which the user
stayed quiet during the CLAP step (peak clap rms 300) while the room noise
during SILENCE had rms 200. -/
def calQuietClap : Test11.Samples :=
  ⟨[⟨200, 0, 0⟩],
   [⟨1000, 1/20, 1000⟩], [⟨1000, 1/20, 2000⟩],
   [⟨1000, 1/4, 3000⟩], [⟨1000, 1/4, 5000⟩], [⟨300, 1/2, 6000⟩]⟩

/-- C1 counterexample: two consecutive blocks one block period (1/43 s)
apart, both with smoothed volume 20000 above Test8's default clap threshold
15000.  The decision engine emits RESPAWN on BOTH blocks — the second
emission happens inside the re-arm window — so Trigger is not emitted
exactly once per rising edge. -/
theorem c1_trigger_refires_counterexample :
    Test8.runTrace Test8.St.init Test8.defaults
        [(1, ⟨20000, 0, 0, 0, 0⟩), (1 + 1/43, ⟨20000, 0, 0, 0, 0⟩)]
      = [some Action.RESPAWN, some Action.RESPAWN] ∧
    (Test8.runTrace Test8.St.init Test8.defaults
        [(1, ⟨20000, 0, 0, 0, 0⟩), (1 + 1/43, ⟨20000, 0, 0, 0, 0⟩)]).count
        (some Action.RESPAWN) = 2 := by
  norm_num [Test8.runTrace, Test8.decide, Test8.St.init, Test8.defaults,
    Test8.DECISION_HOLD, List.count_cons]

/-- C1 (amended): once the dwell window has elapsed, a block with volume
above the clap threshold makes Test8's engine emit RESPAWN, but the engine
then re-emits RESPAWN on every further block inside the hold window
(whatever that block contains), and Test10's loop presses the respawn key
on every block above the threshold with no re-arm at all; the Trigger is
issued as a momentary press that leaves the held-key state untouched
(Test8) resp. with all four held lines off (Test10), never as a
continuously held key. -/
theorem c1_trigger_refires (s : Test8.St) (now now2 : ℚ) (m m2 : Feats)
    (t : Test8.Thresh) (p : Keys) (t10 : Test10.Thresh) (f : Feats)
    (h1 : ¬(now - s.last_time < Test8.DECISION_HOLD)) (h2 : m.vol > t.clap)
    (h3 : now2 - now < Test8.DECISION_HOLD) (h4 : f.vol > t10.respawn) :
    (Test8.decide s now m t).1 = some Action.RESPAWN ∧
    (Test8.decide (Test8.decide s now m t).2 now2 m2 t).1 = some Action.RESPAWN ∧
    Test8.applyAct p (some Action.RESPAWN) = ([KeyEvt.press "q"], p) ∧
    (Test10.step t10 f).pressRespawn = true ∧
    (Test10.step t10 f).keys = Keys.allOff := by
  have e1 : Test8.decide s now m t = (some Action.RESPAWN, ⟨some Action.RESPAWN, now⟩) := by
    unfold Test8.decide
    rw [if_neg h1, if_pos h2]
  have e2 : (Test10.step t10 f) = ⟨true, Keys.allOff⟩ := by
    unfold Test10.step
    rw [if_pos h4]
  refine ⟨by rw [e1], ?_, ?_, by rw [e2], by rw [e2]⟩
  · rw [e1]
    unfold Test8.decide
    simp only
    rw [if_pos h3]
  · unfold Test8.applyAct
    rw [if_pos rfl]

/-- Witness for the amended C1 theorem at a concrete input. -/
theorem c1_trigger_refires_witness :
    (Test8.decide Test8.St.init 1 ⟨20000, 0, 0, 0, 0⟩ Test8.defaults).1
        = some Action.RESPAWN ∧
    (Test8.decide (Test8.decide Test8.St.init 1 ⟨20000, 0, 0, 0, 0⟩ Test8.defaults).2
        (1 + 1/43) ⟨20000, 0, 0, 0, 0⟩ Test8.defaults).1 = some Action.RESPAWN ∧
    Test8.applyAct Keys.allOff (some Action.RESPAWN)
        = ([KeyEvt.press "q"], Keys.allOff) ∧
    (Test10.step Test10.defaults ⟨16000, 0, 0, 0, 0⟩).pressRespawn = true ∧
    (Test10.step Test10.defaults ⟨16000, 0, 0, 0, 0⟩).keys = Keys.allOff :=
  c1_trigger_refires Test8.St.init 1 (1 + 1/43) ⟨20000, 0, 0, 0, 0⟩ ⟨20000, 0, 0, 0, 0⟩
    Test8.defaults Keys.allOff Test10.defaults ⟨16000, 0, 0, 0, 0⟩
    (by norm_num [Test8.St.init, Test8.DECISION_HOLD])
    (by norm_num [Test8.defaults])
    (by norm_num [Test8.DECISION_HOLD])
    (by norm_num [Test10.defaults])

/-- C2 counterexample: the last command changed at time 10 and the engine
is consulted at time 10.05, inside the 0.15 s dwell window, with volume
20000 above the default clap threshold 15000.  Test8's decide returns the
stored IDLE command, not RESPAWN: a volume above the trigger threshold
does NOT bypass the dwell check. -/
theorem c2_no_dwell_bypass_counterexample :
    Test8.decide ⟨some Action.IDLE, 10⟩ (10 + 1/20) ⟨20000, 0, 0, 0, 0⟩ Test8.defaults
      = (some Action.IDLE, ⟨some Action.IDLE, 10⟩) ∧
    (20000 : ℚ) > Test8.defaults.clap ∧
    ((10 + 1/20 : ℚ) - 10) < Test8.DECISION_HOLD := by
  norm_num [Test8.decide, Test8.defaults, Test8.DECISION_HOLD]

/-- C2 (amended): inside the dwell window Test8's decide returns the stored
last command unchanged for EVERY decision — the dwell check is evaluated
first, so even a volume above the clap threshold cannot produce RESPAWN
until the hold time has elapsed; Trigger's re-arm is this same hold window
rather than a bypass-plus-own-interval. -/
theorem c2_dwell_holds_all (s : Test8.St) (now : ℚ) (m : Feats) (t : Test8.Thresh)
    (h : now - s.last_time < Test8.DECISION_HOLD) :
    Test8.decide s now m t = (s.last_action, s) := by
  unfold Test8.decide
  rw [if_pos h]

/-- Witness for the amended C2 theorem at a concrete input. -/
theorem c2_dwell_holds_all_witness :
    Test8.decide ⟨some Action.GAS, 10⟩ (10 + 1/10) ⟨20000, 0, 0, 0, 0⟩ Test8.defaults
      = (some Action.GAS, ⟨some Action.GAS, 10⟩) :=
  c2_dwell_holds_all ⟨some Action.GAS, 10⟩ (10 + 1/10) ⟨20000, 0, 0, 0, 0⟩ Test8.defaults
    (by norm_num [Test8.DECISION_HOLD])

/-- C3 counterexample: in Test11 (the ZCR/centroid variant cited by the
claim) a voiced block (rms 1000 between the silence threshold 300 and the
respawn threshold 20000, zcr 0.05 below the 0.15 gate, centroid 1000)
classifies as LEFT, and `apply_keys` asserts the steering line ALONE:
the accelerate line stays off, so a vowel does produce a steering line
without Accelerate. -/
theorem c3_steer_alone_counterexample :
    Test11.decide_command Test11.defaults ⟨1000, 1/20, 1000⟩ = Action.LEFT ∧
    (Test11.apply_keys Keys5.allOff Action.LEFT).2
      = ⟨false, false, true, false, false⟩ ∧
    (Test11.target Action.LEFT).up = false ∧
    (Test11.target Action.LEFT).left = true := by
  norm_num [Test11.decide_command, Test11.defaults, Test11.apply_keys,
    Test11.target, edge, Keys5.allOff]

/-- C3 (amended): in the band-energy variants the vowel branch always
asserts the accelerate line together with the chosen steering line —
Test10's loop turns a voiced block into left+up or right+up according to
the mid/(low+1) ratio, and Test8's key mapping gives LEFT and RIGHT the
accelerate line as well — but in the centroid variant (Test11) a vowel
command asserts its steering line alone. -/
theorem c3_vowel_steers_and_accelerates (t : Test10.Thresh) (f : Feats)
    (h1 : ¬ f.vol > t.respawn) (h2 : f.vol > t.silence) (h3 : f.pitch > t.pitch) :
    (f.mid / (f.low + 1) > t.r_oe →
      (Test10.step t f).keys = ⟨true, false, true, false⟩) ∧
    (¬ f.mid / (f.low + 1) > t.r_oe →
      (Test10.step t f).keys = ⟨true, false, false, true⟩) ∧
    (Test10.step t f).keys.up = true ∧
    (Test8.mapping (some Action.LEFT)).up = true ∧
    (Test8.mapping (some Action.RIGHT)).up = true ∧
    (Test11.target Action.LEFT).up = false := by
  unfold Test10.step
  rw [if_neg h1, if_pos h2, if_pos h3]
  by_cases hr : f.mid / (f.low + 1) > t.r_oe
  · rw [if_pos hr]
    exact ⟨fun _ => rfl, fun h => absurd hr h, rfl, rfl, rfl, rfl⟩
  · rw [if_neg hr]
    exact ⟨fun h => absurd h hr, fun _ => rfl, rfl, rfl, rfl, rfl⟩

/-- Witness for the amended C3 theorem at a concrete input. -/
theorem c3_vowel_steers_and_accelerates_witness :
    ((3000 : ℚ) / (100 + 1) > Test10.defaults.r_oe →
      (Test10.step Test10.defaults ⟨2000, 1500, 100, 3000, 0⟩).keys
        = ⟨true, false, true, false⟩) ∧
    (¬ (3000 : ℚ) / (100 + 1) > Test10.defaults.r_oe →
      (Test10.step Test10.defaults ⟨2000, 1500, 100, 3000, 0⟩).keys
        = ⟨true, false, false, true⟩) ∧
    (Test10.step Test10.defaults ⟨2000, 1500, 100, 3000, 0⟩).keys.up = true ∧
    (Test8.mapping (some Action.LEFT)).up = true ∧
    (Test8.mapping (some Action.RIGHT)).up = true ∧
    (Test11.target Action.LEFT).up = false :=
  c3_vowel_steers_and_accelerates Test10.defaults ⟨2000, 1500, 100, 3000, 0⟩
    (by norm_num [Test10.defaults])
    (by norm_num [Test10.defaults])
    (by norm_num [Test10.defaults])

/-- C4 counterexample: Test8's decide (cited by the claim) has no absolute
5.0 ceiling.  With calibration having set the fricative split to 7000, a
fricative block whose high/(mid+1) ratio is 6000 — far above 5.0 — is
classified BRAKE, not the Accelerate-only class. -/
theorem c4_no_ceiling_counterexample :
    Test8.decide ⟨none, 0⟩ 10 ⟨1000, 0, 0, 0, 6000⟩ ⟨600, 0, 3/2, 7000, 15000⟩
      = (some Action.BRAKE, ⟨some Action.BRAKE, 10⟩) ∧
    (6000 : ℚ) / (0 + 1) > 5 := by
  norm_num [Test8.decide, Test8.vowelFricAct, Test8.DECISION_HOLD]

/-- C4 (amended): the absolute ratio > 5.0 safety ceiling exists in Test10
(and identically in Test4): in the fricative branch a ratio above 5.0
forces the Accelerate-only class even when the calibrated split is larger,
and when the ratio exceeds neither the split nor 5.0 the Brake-only class
is chosen; Test8's decide, however, compares only against the calibrated
split and has no ceiling. -/
theorem c4_fricative_ceiling (t : Test10.Thresh) (f : Feats) (t4 : Test4.Thresh)
    (h1 : ¬ f.vol > t.respawn) (h2 : f.vol > t.silence) (h3 : ¬ f.pitch > t.pitch) :
    (f.high / (f.mid + 1) > 5 →
      (Test10.step t f).keys = ⟨true, false, false, false⟩ ∧
      (¬ f.vol > t4.respawn → f.vol > t4.silence → ¬ f.pitch > t4.pitch →
        Test4.process_audio t4 f = .lines ⟨true, false, false, false⟩)) ∧
    (¬ f.high / (f.mid + 1) > 5 → ¬ f.high / (f.mid + 1) > t.r_ssh →
      (Test10.step t f).keys = ⟨false, true, false, false⟩) := by
  constructor
  · intro h5
    constructor
    · unfold Test10.step
      rw [if_neg h1, if_pos h2, if_neg h3, if_pos (Or.inr h5)]
    · intro h1' h2' h3'
      unfold Test4.process_audio
      rw [if_neg h1', if_pos h2', if_neg h3', if_pos (Or.inr h5)]
  · intro h5 hs
    unfold Test10.step
    rw [if_neg h1, if_pos h2, if_neg h3, if_neg (by rintro (h | h) <;> [exact hs h; exact h5 h])]

/-- Witness for the amended C4 theorem at a concrete input. -/
theorem c4_fricative_ceiling_witness :
    (((6000 : ℚ) / (0 + 1) > 5 →
      (Test10.step Test10.defaults ⟨1000, 0, 0, 0, 6000⟩).keys
        = ⟨true, false, false, false⟩ ∧
      (¬ (1000 : ℚ) > Test4.defaults.respawn → (1000 : ℚ) > Test4.defaults.silence →
        ¬ (0 : ℚ) > Test4.defaults.pitch →
        Test4.process_audio Test4.defaults ⟨1000, 0, 0, 0, 6000⟩
          = .lines ⟨true, false, false, false⟩)) ∧
    (¬ (6000 : ℚ) / (0 + 1) > 5 → ¬ (6000 : ℚ) / (0 + 1) > Test10.defaults.r_ssh →
      (Test10.step Test10.defaults ⟨1000, 0, 0, 0, 6000⟩).keys
        = ⟨false, true, false, false⟩)) ∧
    (Test10.step Test10.defaults ⟨1000, 0, 0, 0, 6000⟩).keys
      = ⟨true, false, false, false⟩ ∧
    Test4.process_audio Test4.defaults ⟨1000, 0, 0, 0, 6000⟩
      = .lines ⟨true, false, false, false⟩ := by
  have h := c4_fricative_ceiling Test10.defaults ⟨1000, 0, 0, 0, 6000⟩ Test4.defaults
    (by norm_num [Test10.defaults]) (by norm_num [Test10.defaults])
    (by norm_num [Test10.defaults])
  have h5 : (6000 : ℚ) / (0 + 1) > 5 := by norm_num
  refine ⟨h, (h.1 h5).1, (h.1 h5).2 ?_ ?_ ?_⟩
  · norm_num [Test4.defaults]
  · norm_num [Test4.defaults]
  · norm_num [Test4.defaults]

/-- C5 counterexample: Test11's finish (cited by the claim) derives the
silence threshold from the PEAK silence rms with floor 300, not from the
mean with floor 500: on captured volumes 100, 120, 110 it yields
max(120*2, 300) = 300, not 500. -/
theorem c5_silence_mean_counterexample :
    (Test11.finish calSilence100).silence = 300 ∧ (300 : ℚ) ≠ 500 := by
  norm_num [Test11.finish, calSilence100, listMax, meanQ]

/-- C5 (amended): Test9's and Test10's silence step computes
max(mean(volumes) * 2.0, 500) — on samples 100, 120, 110 the mean*2 is 220
and the floor 500 dominates, giving exactly 500 — while Test11's finish
computes max(max(volumes) * 2, 300), which on the same samples gives 300. -/
theorem c5_silence_floor :
    Test9.silenceFloor [100, 120, 110] = 500 ∧
    Test10.silOf [100, 120, 110] = 500 ∧
    meanQ ([100, 120, 110] : List ℚ) * 2 = 220 ∧
    (Test11.finish calSilence100).silence = 300 := by
  norm_num [Test9.silenceFloor, Test10.silOf, Test11.finish, calSilence100,
    meanQ, listMax, List.foldl]

/-- C6: the impulse (CLAP) step of Test9's finish_calibration and of
Test10's finish sets the respawn threshold to 0.8 times the PEAK captured
volume: on clap volumes 200, 18000, 300 the peak is 18000 and the result
is exactly 14400, which differs from what the mean (0.8 * 18500/3) would
give. -/
theorem c6_trigger_from_peak :
    Test9.respawnOf [200, 18000, 300] = 14400 ∧
    Test10.respawnOf [200, 18000, 300] = 14400 ∧
    listMax [200, 18000, 300] = 18000 ∧
    meanQ ([200, 18000, 300] : List ℚ) * (8/10) ≠ 14400 := by
  norm_num [Test9.respawnOf, Test10.respawnOf, listMax, meanQ, List.foldl]

/-- C7: a failed block read (the `except` path of Test10's get_spectrum
and of Test11's get_features) yields the all-zero feature vector, and
classifying that zero vector resolves to Idle — no held line, no respawn
press — for every threshold set whose silence threshold is positive (and
whose respawn threshold is non-negative, as the calibrated floors
guarantee). -/
theorem c7_read_failure_idle (t : Test10.Thresh) (tz : Test11.Thresh)
    (h1 : 0 < t.silence) (h2 : 0 ≤ t.respawn)
    (h3 : 0 < tz.silence) (h4 : 0 ≤ tz.respawn) :
    Test10.get_spectrum none = ⟨0, 0, 0, 0, 0⟩ ∧
    Test10.step t (Test10.get_spectrum none) = ⟨false, Keys.allOff⟩ ∧
    Test11.get_features none = ⟨0, 0, 0⟩ ∧
    Test11.decide_command tz (Test11.get_features none) = Action.IDLE := by
  refine ⟨rfl, ?_, rfl, ?_⟩
  · show Test10.step t ⟨0, 0, 0, 0, 0⟩ = _
    unfold Test10.step
    rw [if_neg (by simpa using h2), if_neg (by simpa using h1.le)]
  · show Test11.decide_command tz ⟨0, 0, 0⟩ = _
    unfold Test11.decide_command
    rw [if_neg (by simpa using h4), if_pos (by simpa using h3)]

/-- Witness for the C7 theorem at the default threshold sets. -/
theorem c7_read_failure_idle_witness :
    Test10.get_spectrum none = ⟨0, 0, 0, 0, 0⟩ ∧
    Test10.step Test10.defaults (Test10.get_spectrum none) = ⟨false, Keys.allOff⟩ ∧
    Test11.get_features none = ⟨0, 0, 0⟩ ∧
    Test11.decide_command Test11.defaults (Test11.get_features none) = Action.IDLE :=
  c7_read_failure_idle Test10.defaults Test11.defaults
    (by norm_num [Test10.defaults]) (by norm_num [Test10.defaults])
    (by norm_num [Test11.defaults]) (by norm_num [Test11.defaults])

/-- C8: at the failing input — Test5's worker stopping while the
accelerate line is pressed — Test5's stop_stream issues no key event and
leaves the line asserted (its result is not the all-released state), while
Test7's stop_stream on the same state releases the pressed key before the
worker terminates. -/
theorem c8_exit_leaves_key_pressed :
    Test5.stop_stream ⟨true, false, false, false, false⟩
      = ([], ⟨true, false, false, false, false⟩) ∧
    (Test5.stop_stream ⟨true, false, false, false, false⟩).2 ≠ Keys5.allOff ∧
    Test7.stop_stream ⟨true, false, false, false, false⟩
      = ([KeyEvt.keyUp "w"], Keys5.allOff) := by
  refine ⟨rfl, ?_, by simp [Test7.stop_stream, Test7.release_all_keys]⟩
  simp [Test5.stop_stream, Keys5.allOff]

/-- C9 counterexample: on the quiet-clap calibration transcript Test11's
finish produces silence threshold 400 and respawn threshold 240 — a
threshold set violating silenceVolume < triggerVolume — and hands it to
the processor unconditionally: nothing in the code rejects a
non-monotonic threshold configuration. -/
theorem c9_nonmonotonic_accepted_counterexample :
    (Test11.finish calQuietClap).silence = 400 ∧
    (Test11.finish calQuietClap).respawn = 240 ∧
    ¬ (Test11.finish calQuietClap).silence < (Test11.finish calQuietClap).respawn := by
  norm_num [Test11.finish, calQuietClap, listMax, meanQ]

/-- C9 (amended): the conservative startup defaults of every variant do
satisfy the invariant — all threshold fields are non-negative and the
silence threshold is strictly below the trigger threshold — but the
invariant is not enforced afterwards: calibration output is assigned
unchecked, and no configuration-time rejection of non-monotonic values
exists anywhere in the code. -/
theorem c9_default_thresholds_monotone :
    (0 ≤ Test8.defaults.silence ∧ 0 ≤ Test8.defaults.pitch ∧
      0 ≤ Test8.defaults.r_oe ∧ 0 ≤ Test8.defaults.r_ssh ∧
      0 ≤ Test8.defaults.clap ∧ Test8.defaults.silence < Test8.defaults.clap) ∧
    (0 ≤ Test10.defaults.silence ∧ 0 ≤ Test10.defaults.pitch ∧
      0 ≤ Test10.defaults.r_oe ∧ 0 ≤ Test10.defaults.r_ssh ∧
      0 ≤ Test10.defaults.respawn ∧
      Test10.defaults.silence < Test10.defaults.respawn) ∧
    (0 ≤ Test11.defaults.silence ∧ 0 ≤ Test11.defaults.zcr ∧
      0 ≤ Test11.defaults.vowel_cent ∧ 0 ≤ Test11.defaults.fric_cent ∧
      0 ≤ Test11.defaults.respawn ∧
      Test11.defaults.silence < Test11.defaults.respawn) ∧
    (0 ≤ Test4.defaults.silence ∧ Test4.defaults.silence < Test4.defaults.respawn) := by
  norm_num [Test8.defaults, Test10.defaults, Test11.defaults, Test4.defaults]

/-- Helper for C10: the voiced/fricative classification of Test8 is one of
the four steering/pedal commands, never IDLE or RESPAWN. -/
theorem vowelFricAct_ne (m : Feats) (t : Test8.Thresh) :
    Test8.vowelFricAct m t ≠ Action.IDLE ∧ Test8.vowelFricAct m t ≠ Action.RESPAWN := by
  unfold Test8.vowelFricAct
  constructor <;> (split <;> split <;> simp)

/-- C10: in Test8's decision engine the stored last-change time is only
ever rewritten (to `now`) by a non-Idle decision — the clap branch or a
steering/pedal classification — and the Idle branch updates the stored
last command while leaving the timestamp untouched, so a run of silent
frames neither restarts nor extends the dwell window. -/
theorem c10_idle_preserves_change_time (s : Test8.St) (now : ℚ) (m : Feats)
    (t : Test8.Thresh) :
    ((Test8.decide s now m t).2.last_time = s.last_time ∨
      ((Test8.decide s now m t).2.last_time = now ∧
        (Test8.decide s now m t).1 ≠ some Action.IDLE ∧
        (Test8.decide s now m t).1 ≠ none)) ∧
    (¬(now - s.last_time < Test8.DECISION_HOLD) → ¬ m.vol > t.clap → m.vol < t.silence →
      Test8.decide s now m t = (some Action.IDLE, ⟨some Action.IDLE, s.last_time⟩)) := by
  constructor
  · unfold Test8.decide
    by_cases h1 : now - s.last_time < Test8.DECISION_HOLD
    · rw [if_pos h1]
      exact Or.inl rfl
    · rw [if_neg h1]
      by_cases h2 : m.vol > t.clap
      · rw [if_pos h2]
        exact Or.inr ⟨rfl, by simp, by simp⟩
      · rw [if_neg h2]
        by_cases h3 : m.vol < t.silence
        · rw [if_pos h3]
          exact Or.inl rfl
        · rw [if_neg h3]
          exact Or.inr ⟨rfl, by simp [(vowelFricAct_ne m t).1], by simp⟩
  · intro h1 h2 h3
    unfold Test8.decide
    rw [if_neg h1, if_neg h2, if_pos h3]

/-- Witness for the C10 theorem at a concrete input: a silent frame (volume
100) after a GAS command whose dwell window (set at time 0) has elapsed by
time 10 yields IDLE while keeping the stored change time 0. -/
theorem c10_idle_preserves_change_time_witness :
    Test8.decide ⟨some Action.GAS, 0⟩ 10 ⟨100, 0, 0, 0, 0⟩ Test8.defaults
      = (some Action.IDLE, ⟨some Action.IDLE, 0⟩) :=
  (c10_idle_preserves_change_time ⟨some Action.GAS, 0⟩ 10 ⟨100, 0, 0, 0, 0⟩
      Test8.defaults).2
    (by norm_num [Test8.DECISION_HOLD]) (by norm_num [Test8.defaults])
    (by norm_num [Test8.defaults])

end DSPCore
